import Mathlib

/-!
Shallow embedding of the bounding-volume subsystem of hyzboy/CMMath
(src/inc/hgl/math/geometry/*.h, src/src/Geometry/*.cpp).

Machine `float` values are modelled as exact rationals (ℚ).  Where the C++
code computes an exact square root (`glm::length`) and stores or compares the
resulting value, the embedded function takes that length as an explicit
parameter `dist`, and every theorem about it carries the defining constraints
`0 ≤ dist` and `dist ^ 2 = dot v v`; this is the exact-real value of the
float expression.  All other arithmetic (+, -, *, /, abs, min, max,
comparisons) is exact in ℚ.
-/

namespace CMMath

/-- Three-component vector, mirroring `glm::vec3` / `hgl::math::Vector3f`. -/
structure Vec3 where
  x : ℚ
  y : ℚ
  z : ℚ
deriving DecidableEq, Repr

namespace Vec3

instance : Add Vec3 := ⟨fun a b => ⟨a.x + b.x, a.y + b.y, a.z + b.z⟩⟩
instance : Sub Vec3 := ⟨fun a b => ⟨a.x - b.x, a.y - b.y, a.z - b.z⟩⟩
instance : Neg Vec3 := ⟨fun a => ⟨-a.x, -a.y, -a.z⟩⟩
instance : SMul ℚ Vec3 := ⟨fun q a => ⟨q * a.x, q * a.y, q * a.z⟩⟩

@[simp] theorem add_x (a b : Vec3) : (a + b).x = a.x + b.x := rfl
@[simp] theorem add_y (a b : Vec3) : (a + b).y = a.y + b.y := rfl
@[simp] theorem add_z (a b : Vec3) : (a + b).z = a.z + b.z := rfl
@[simp] theorem sub_x (a b : Vec3) : (a - b).x = a.x - b.x := rfl
@[simp] theorem sub_y (a b : Vec3) : (a - b).y = a.y - b.y := rfl
@[simp] theorem sub_z (a b : Vec3) : (a - b).z = a.z - b.z := rfl
@[simp] theorem smul_x (q : ℚ) (a : Vec3) : (q • a).x = q * a.x := rfl
@[simp] theorem smul_y (q : ℚ) (a : Vec3) : (q • a).y = q * a.y := rfl
@[simp] theorem smul_z (q : ℚ) (a : Vec3) : (q • a).z = q * a.z := rfl

/-- The `glm::dot` product. -/
def dot (a b : Vec3) : ℚ := a.x * b.x + a.y * b.y + a.z * b.z

/-- The `glm::cross` product. -/
def cross (a b : Vec3) : Vec3 :=
  ⟨a.y * b.z - a.z * b.y, a.z * b.x - a.x * b.z, a.x * b.y - a.y * b.x⟩

/-- Indexed component access, mirroring `v[i]` on `glm::vec3`. -/
def comp (v : Vec3) : ℕ → ℚ
  | 0 => v.x
  | 1 => v.y
  | _ => v.z

/-- Componentwise minimum (`glm::min` / `MinVector`). -/
def vmin (a b : Vec3) : Vec3 := ⟨min a.x b.x, min a.y b.y, min a.z b.z⟩

/-- Componentwise maximum (`glm::max` / `MaxVector`). -/
def vmax (a b : Vec3) : Vec3 := ⟨max a.x b.x, max a.y b.y, max a.z b.z⟩

/-- The zero vector (`mem_zero` state). -/
def zero : Vec3 := ⟨0, 0, 0⟩

end Vec3

/-!
Plane is declared in the repository headers (`struct Plane` forward
declarations) but its definition is not under src/.
Modelled from the spec: "a half-space Plane (point+normal, signed
distance-to-point)", "Plane: unit normal + offset", exposing
"`Set(point,normal)` and signed `Distance(point)`".
-/

/-- Modelled from the spec: the missing `hgl::math::Plane` type — a normal
vector plus scalar offset, with signed point distance
`Distance(p) = dot(normal, p) + d`. -/
structure Plane where
  normal : Vec3
  d : ℚ
deriving DecidableEq, Repr

namespace Plane

/-- Modelled from the spec: signed distance of a point to the half-space
boundary. -/
def Distance (pl : Plane) (p : Vec3) : ℚ := Vec3.dot pl.normal p + pl.d

end Plane

/-- The `hgl::math::Ray` collaborator: origin + direction (spec §2; the type
itself is not under src/, its two fields are read directly by the slab code).
-/
structure Ray where
  origin : Vec3
  direction : Vec3
deriving DecidableEq, Repr

/-!
AABB, from src/inc/hgl/math/geometry/AABB.h and src/src/Geometry/AABB.cpp.
The four `Vector3f` fields are kept in declaration order.  The cached face
planes and face-center points that `Update()` rebuilds are omitted from the
state: no claim reads them, and they are a pure function of min/max.
-/

/-- Axis-aligned bounding box: the four vector fields of `class AABB`. -/
structure AABB where
  minPoint : Vec3
  center : Vec3
  length : Vec3
  maxPoint : Vec3
deriving DecidableEq, Repr

namespace AABB

/-- `AABB::SetMinMax`: assigns min/max and the cached center and length. -/
def SetMinMax (mn mx : Vec3) : AABB :=
  { minPoint := mn
    maxPoint := mx
    length := mx - mn
    center := (1/2 : ℚ) • (mn + mx) }

/-- `AABB::Clear`: zeroes every field. -/
def Clear : AABB :=
  { minPoint := Vec3.zero, maxPoint := Vec3.zero
    center := Vec3.zero, length := Vec3.zero }

/-- `AABB::ContainsPoint`: per-axis closed range test. -/
def ContainsPoint (a : AABB) (p : Vec3) : Bool :=
  decide (a.minPoint.x ≤ p.x) && decide (p.x ≤ a.maxPoint.x) &&
  decide (a.minPoint.y ≤ p.y) && decide (p.y ≤ a.maxPoint.y) &&
  decide (a.minPoint.z ≤ p.z) && decide (p.z ≤ a.maxPoint.z)

/-- `AABB::Intersects(AABB)`: 3-axis interval overlap. -/
def Intersects (a other : AABB) : Bool :=
  !(decide (a.maxPoint.x < other.minPoint.x) || decide (a.minPoint.x > other.maxPoint.x) ||
    decide (a.maxPoint.y < other.minPoint.y) || decide (a.minPoint.y > other.maxPoint.y) ||
    decide (a.maxPoint.z < other.minPoint.z) || decide (a.minPoint.z > other.maxPoint.z))

/-- `AABB::GetVertexP`: the corner farthest along `normal` (starts from
`minPoint`, adds `length` on each axis whose normal component is positive). -/
def GetVertexP (a : AABB) (normal : Vec3) : Vec3 :=
  ⟨if normal.x > 0 then a.minPoint.x + a.length.x else a.minPoint.x,
   if normal.y > 0 then a.minPoint.y + a.length.y else a.minPoint.y,
   if normal.z > 0 then a.minPoint.z + a.length.z else a.minPoint.z⟩

/-- `AABB::GetVertexN`: the corner nearest along `normal` (adds `length` on
each axis whose normal component is negative). -/
def GetVertexN (a : AABB) (normal : Vec3) : Vec3 :=
  ⟨if normal.x < 0 then a.minPoint.x + a.length.x else a.minPoint.x,
   if normal.y < 0 then a.minPoint.y + a.length.y else a.minPoint.y,
   if normal.z < 0 then a.minPoint.z + a.length.z else a.minPoint.z⟩

/-- `AABB::SetFromPoints`: `Clear()` then, unless the buffer is null or the
count is zero, a strided min/max scan over the flat float buffer followed by
`SetMinMax`.  The null pointer is modelled as `none`; reads are `List.getD`
with default 0. -/
def SetFromPoints (pts : Option (List ℚ)) (count cc : ℕ) : AABB :=
  match pts with
  | none => Clear
  | some l =>
    if count = 0 then Clear
    else
      let pt : ℕ → Vec3 := fun i => ⟨l.getD (i * cc) 0, l.getD (i * cc + 1) 0, l.getD (i * cc + 2) 0⟩
      let mm := (List.range (count - 1)).foldl
        (fun (acc : Vec3 × Vec3) k => (Vec3.vmin acc.1 (pt (k + 1)), Vec3.vmax acc.2 (pt (k + 1))))
        (pt 0, pt 0)
      SetMinMax mm.1 mm.2

end AABB

/-!
BoundingSphere, from src/inc/hgl/math/geometry/BoundingSphere.h and
src/src/Geometry/BoundingSphere.cpp.
-/

/-- Bounding sphere: `center` + `radius`; `radius = -1` is the empty
sentinel. -/
structure BoundingSphere where
  center : Vec3
  radius : ℚ
deriving DecidableEq, Repr

namespace BoundingSphere

/-- `BoundingSphere::Clear`: zero center, radius −1. -/
def Clear : BoundingSphere := ⟨Vec3.zero, -1⟩

/-- `BoundingSphere::IsEmpty`: `radius <= 0`. -/
def IsEmpty (s : BoundingSphere) : Bool := decide (s.radius ≤ 0)

/-- `BoundingSphere::ContainsPoint`: squared distance against
`radius * radius`. -/
def ContainsPoint (s : BoundingSphere) (p : Vec3) : Bool :=
  decide (Vec3.dot (p - s.center) (p - s.center) ≤ s.radius * s.radius)

/-- `BoundingSphere::Intersects(BoundingSphere)`: squared center distance
against the squared radius sum. -/
def Intersects (s other : BoundingSphere) : Bool :=
  decide (Vec3.dot (s.center - other.center) (s.center - other.center) ≤
          (s.radius + other.radius) * (s.radius + other.radius))

/-- `BoundingSphere::Merge`, with `dist` standing for the exact value of
`glm::length(other.center - center)` (see the file header).  Branches mirror
the source: empty-argument and empty-self short circuits, the two full
containment short circuits, then the minimal enclosing sphere formulas
(the source's locals `new_radius = (dist+r1+r2)*0.5` and
`t = (new_radius-radius)/dist`, with `center += d*t`, written inline). -/
def MergeD (s other : BoundingSphere) (dist : ℚ) : BoundingSphere :=
  if other.radius ≤ 0 then s
  else if s.radius ≤ 0 then other
  else if dist + other.radius ≤ s.radius then s
  else if dist + s.radius ≤ other.radius then other
  else
    { center := s.center +
        (((dist + s.radius + other.radius) * (1/2) - s.radius) / dist) •
          (other.center - s.center)
      radius := (dist + s.radius + other.radius) * (1/2) }

/-- `BoundingSphere::ExpandToInclude(point)`, with `dist` standing for the
exact value of `glm::length(point - center)`.  The empty branch recenters to
the point with radius 0; otherwise the radius grows to `dist` only when
`dist > radius`. -/
def ExpandToIncludeD (s : BoundingSphere) (p : Vec3) (dist : ℚ) : BoundingSphere :=
  if s.radius ≤ 0 then { center := p, radius := 0 }
  else if s.radius < dist then { center := s.center, radius := dist }
  else s

/-- `BoundingSphere::SetFromPoints`: `Clear()` then, unless the buffer is
null or the count is zero, the two-pass average-center fit.  The fit's radius
is a float square root, so the non-degenerate pass is abstracted as the
parameter `fit` (only the degenerate guard is the subject of any claim). -/
def SetFromPointsF (pts : Option (List ℚ)) (count cc : ℕ)
    (fit : List ℚ → ℕ → ℕ → BoundingSphere) : BoundingSphere :=
  match pts with
  | none => Clear
  | some l => if count = 0 then Clear else fit l count cc

/-- Exact-real rendering of "sphere `S` fully contains sphere `T`"
(`dist + T.radius ≤ S.radius` with `dist` the true center distance):
equivalently `T.radius ≤ S.radius` and squared center distance at most
`(S.radius - T.radius)^2`. -/
def enclosesSq (S T : BoundingSphere) : Prop :=
  T.radius ≤ S.radius ∧
  Vec3.dot (S.center - T.center) (S.center - T.center) ≤ (S.radius - T.radius) ^ 2

instance (S T : BoundingSphere) : Decidable (enclosesSq S T) := by
  unfold enclosesSq; infer_instance

end BoundingSphere

/-!
OBB, from src/inc/hgl/math/geometry/OBB.h and src/src/Geometry/OBB.cpp.
Fields: `center`, the three columns of the `Matrix3f axis`, and
`half_length`.  The six cached planes built by `ComputePlanes()` are omitted
from the state: no claim reads them, and they are a pure function of the
other fields.
-/

/-- Oriented bounding box: center, three axis columns, half extents. -/
structure OBB where
  center : Vec3
  axis0 : Vec3
  axis1 : Vec3
  axis2 : Vec3
  half_length : Vec3
deriving DecidableEq, Repr

namespace OBB

/-- `OBB::GetAxis(n)`: column `n` of the axis matrix. -/
def GetAxis (o : OBB) : ℕ → Vec3
  | 0 => o.axis0
  | 1 => o.axis1
  | _ => o.axis2

/-- The five-argument `OBB::Set`. -/
def Set (c a0 a1 a2 hl : Vec3) : OBB :=
  { center := c, axis0 := a0, axis1 := a1, axis2 := a2, half_length := hl }

/-- The two-argument `OBB::Set`: identity axes. -/
def SetIdentity (c hl : Vec3) : OBB :=
  Set c ⟨1, 0, 0⟩ ⟨0, 1, 0⟩ ⟨0, 0, 1⟩ hl

/-- `OBB::Clear`: zeroes every field (including the axis matrix). -/
def Clear : OBB :=
  { center := Vec3.zero, axis0 := Vec3.zero, axis1 := Vec3.zero
    axis2 := Vec3.zero, half_length := Vec3.zero }

/-- `OBB::ContainsPoint`: project `point - center` on each axis and compare
against the half extent; the loop's early `return false` is `List.all`. -/
def ContainsPoint (o : OBB) (p : Vec3) : Bool :=
  (List.range 3).all fun i =>
    decide (|Vec3.dot (p - o.center) (o.GetAxis i)| ≤ o.half_length.comp i)

/-- Separation test of `OBB::Intersects` on this box's axis `i` (first SAT
loop). -/
def selfSepB (A B : OBB) (i : ℕ) : Bool :=
  let t := B.center - A.center
  let ra := A.half_length.comp i
  let rb := |Vec3.dot (B.GetAxis 0) (A.GetAxis i)| * B.half_length.x +
            |Vec3.dot (B.GetAxis 1) (A.GetAxis i)| * B.half_length.y +
            |Vec3.dot (B.GetAxis 2) (A.GetAxis i)| * B.half_length.z
  decide (ra + rb < |Vec3.dot t (A.GetAxis i)|)

/-- Separation test of `OBB::Intersects` on the other box's axis `i` (second
SAT loop). -/
def otherSepB (A B : OBB) (i : ℕ) : Bool :=
  let t := B.center - A.center
  let ra := |Vec3.dot (A.GetAxis 0) (B.GetAxis i)| * A.half_length.x +
            |Vec3.dot (A.GetAxis 1) (B.GetAxis i)| * A.half_length.y +
            |Vec3.dot (A.GetAxis 2) (B.GetAxis i)| * A.half_length.z
  let rb := B.half_length.comp i
  decide (ra + rb < |Vec3.dot t (B.GetAxis i)|)

/-- Separation test of `OBB::Intersects` on the cross axis `i × j` (third SAT
loop).  The source normalizes the cross product by its float length and skips
it when that length is below 1e-6; over exact reals the normalization divides
both sides of the comparison by the same positive factor, so the test is
stated on the unnormalized axis, and the skip guard `len < 1e-6` becomes
`len^2 < 1e-12`. -/
def crossSepB (A B : OBB) (i j : ℕ) : Bool :=
  let t := B.center - A.center
  let ax := Vec3.cross (A.GetAxis i) (B.GetAxis j)
  if Vec3.dot ax ax < 1 / 1000000000000 then false
  else
    let ra := A.half_length.comp ((i + 1) % 3) * |Vec3.dot (A.GetAxis ((i + 1) % 3)) ax| +
              A.half_length.comp ((i + 2) % 3) * |Vec3.dot (A.GetAxis ((i + 2) % 3)) ax|
    let rb := B.half_length.comp ((j + 1) % 3) * |Vec3.dot (B.GetAxis ((j + 1) % 3)) ax| +
              B.half_length.comp ((j + 2) % 3) * |Vec3.dot (B.GetAxis ((j + 2) % 3)) ax|
    decide (ra + rb < |Vec3.dot t ax|)

/-- `OBB::Intersects(OBB)`: full 15-axis SAT; each loop's early
`return false` is a `List.any` over its axis indices. -/
def Intersects (A B : OBB) : Bool :=
  if (List.range 3).any (selfSepB A B) then false
  else if (List.range 3).any (otherSepB A B) then false
  else if (List.range 3).any (fun i => (List.range 3).any (crossSepB A B i)) then false
  else true

/-- Separation test of `OBB::IntersectsAABB` on the OBB's axis `i` (first
loop): `ra` is this half extent, `rb` the AABB extents against the axis
components, compared with the projected center offset. -/
def obbAxisSepB (o : OBB) (a : AABB) (i : ℕ) : Bool :=
  let ae := (1/2 : ℚ) • a.length
  let t := a.center - o.center
  let ax := o.GetAxis i
  let ra := o.half_length.comp i
  let rb := ae.x * |ax.x| + ae.y * |ax.y| + ae.z * |ax.z|
  decide (ra + rb < |Vec3.dot t ax|)

/-- Separation test of `OBB::IntersectsAABB` on world axis `i` (second loop):
`ra` projects the OBB's half extents on the world axis, `rb` is the AABB
extent, compared with the center offset component. -/
def worldAxisSepB (o : OBB) (a : AABB) (i : ℕ) : Bool :=
  let ae := (1/2 : ℚ) • a.length
  let t := a.center - o.center
  let ra := o.half_length.x * |(o.GetAxis 0).comp i| +
            o.half_length.y * |(o.GetAxis 1).comp i| +
            o.half_length.z * |(o.GetAxis 2).comp i|
  let rb := ae.comp i
  decide (ra + rb < |t.comp i|)

/-- `OBB::IntersectsAABB`: SAT over the OBB's 3 axes then the 3 world axes;
the 9 cross axes are not tested (the source's loops with early
`return false`, then `return true`). -/
def IntersectsAABB (o : OBB) (a : AABB) : Bool :=
  if (List.range 3).any (obbAxisSepB o a) then false
  else if (List.range 3).any (worldAxisSepB o a) then false
  else true

end OBB

/-!
Frustum, from src/inc/hgl/math/geometry/Frustum.h and
src/src/Geometry/Frustum.cpp: six planes and the P/N-vertex box test.
-/

/-- The `Frustum::Scope` classification result. -/
inductive Scope where
  | OUTSIDE
  | INTERSECT
  | INSIDE
deriving DecidableEq, Repr

/-- View frustum: the six planes `pl[0..5]`. -/
structure Frustum where
  pl0 : Plane
  pl1 : Plane
  pl2 : Plane
  pl3 : Plane
  pl4 : Plane
  pl5 : Plane
deriving DecidableEq, Repr

namespace Frustum

/-- The six planes in loop order. -/
def planeList (f : Frustum) : List Plane := [f.pl0, f.pl1, f.pl2, f.pl3, f.pl4, f.pl5]

/-- The loop body of `Frustum::BoxIn`: per plane, a negative P-vertex
distance returns OUTSIDE immediately; a negative N-vertex distance downgrades
the running result to INTERSECT and continues. -/
def boxInLoop (b : AABB) (res : Scope) : List Plane → Scope
  | [] => res
  | p :: rest =>
    if p.Distance (b.GetVertexP p.normal) < 0 then Scope.OUTSIDE
    else if p.Distance (b.GetVertexN p.normal) < 0 then boxInLoop b Scope.INTERSECT rest
    else boxInLoop b res rest

/-- `Frustum::BoxIn`: run the plane loop starting from INSIDE. -/
def BoxIn (f : Frustum) (b : AABB) : Scope :=
  boxInLoop b Scope.INSIDE f.planeList

end Frustum

/-!
BoundingVolumes composite and its packed record, from
src/inc/hgl/math/geometry/BoundingVolumes.h and
src/src/Geometry/BoundingVolumes.cpp.
-/

/-- The composite: one AABB + one OBB + one BoundingSphere. -/
structure BoundingVolumes where
  aabb : AABB
  obb : OBB
  bsphere : BoundingSphere
deriving DecidableEq, Repr

/-- The fixed 36-float packed record `BoundingVolumesData`. -/
structure BoundingVolumesData where
  aabbMin : Vec3
  aabbMax : Vec3
  obbCenter : Vec3
  obbAxisX : Vec3
  obbAxisY : Vec3
  obbAxisZ : Vec3
  obbHalfSize : Vec3
  sphereCenter : Vec3
  sphereRadius : ℚ
deriving DecidableEq, Repr

namespace BoundingVolumes

/-- `BoundingVolumes::Clear`: `aabb.Clear()`, `obb.Clear()`,
`mem_zero(bsphere)` — note the sphere is zeroed (radius 0), not set to the
−1 sentinel. -/
def Clear : BoundingVolumes :=
  { aabb := AABB.Clear, obb := OBB.Clear, bsphere := ⟨Vec3.zero, 0⟩ }

/-- `BoundingVolumes::IntersectsFast`: the sphere-sphere test. -/
def IntersectsFast (a other : BoundingVolumes) : Bool :=
  a.bsphere.Intersects other.bsphere

/-- `BoundingVolumes::IntersectsAABB`: the AABB-AABB test. -/
def IntersectsAABB (a other : BoundingVolumes) : Bool :=
  a.aabb.Intersects other.aabb

/-- `BoundingVolumes::IntersectsOBB`: the OBB-OBB test. -/
def IntersectsOBB (a other : BoundingVolumes) : Bool :=
  a.obb.Intersects other.obb

/-- `BoundingVolumes::Intersects`: hierarchical cascade — sphere, then AABB,
then OBB, returning false at the first failing test. -/
def Intersects (a other : BoundingVolumes) : Bool :=
  if !(a.IntersectsFast other) then false
  else if !(a.IntersectsAABB other) then false
  else a.IntersectsOBB other

/-- `BoundingVolumes::Pack`: field-by-field copy into the packed record. -/
def Pack (bv : BoundingVolumes) : BoundingVolumesData :=
  { aabbMin := bv.aabb.minPoint
    aabbMax := bv.aabb.maxPoint
    obbCenter := bv.obb.center
    obbAxisX := bv.obb.axis0
    obbAxisY := bv.obb.axis1
    obbAxisZ := bv.obb.axis2
    obbHalfSize := bv.obb.half_length
    sphereCenter := bv.bsphere.center
    sphereRadius := bv.bsphere.radius }

/-- `BoundingVolumes::SetFromPoints`: on a null buffer or zero count,
`Clear()` and return false; otherwise refit all three members from the same
buffer and return true.  The OBB angular-search fit and the sphere fit use
float trigonometry / square roots, so they are abstracted as the parameters
`obbFit` and `sphFit` (only the degenerate guard is the subject of any
claim); the AABB min/max scan is embedded exactly. -/
def SetFromPoints (pts : Option (List ℚ)) (count cc : ℕ)
    (obbFit : List ℚ → ℕ → ℕ → OBB)
    (sphFit : List ℚ → ℕ → ℕ → BoundingSphere) : BoundingVolumes × Bool :=
  match pts with
  | none => (Clear, false)
  | some l =>
    if count = 0 then (Clear, false)
    else
      ({ aabb := AABB.SetFromPoints (some l) count cc
         obb := obbFit l count cc
         bsphere := BoundingSphere.SetFromPointsF (some l) count cc sphFit }, true)

end BoundingVolumes

namespace BoundingVolumesData

/-- `BoundingVolumesData::To`: rebuild the composite — the AABB through
`SetMinMax`, the OBB through the five-argument `Set`, the sphere by direct
field assignment. -/
def To (d : BoundingVolumesData) : BoundingVolumes :=
  { aabb := AABB.SetMinMax d.aabbMin d.aabbMax
    obb := OBB.Set d.obbCenter d.obbAxisX d.obbAxisY d.obbAxisZ d.obbHalfSize
    bsphere := ⟨d.sphereCenter, d.sphereRadius⟩ }

end BoundingVolumesData

/-!
The slab-based ray/AABB intersection, from src/src/Geometry/AABB.cpp.
`t_max` starts at float +infinity, modelled as `Option ℚ` with `none` for
infinity.
-/

/-- Running upper slab bound: `none` is +infinity. -/
def minInf (o : Option ℚ) (q : ℚ) : Option ℚ :=
  match o with
  | none => some q
  | some v => some (min v q)

/-- Whether `t_min > t_max` with `t_max` possibly infinite. -/
def gtInf (tmin : ℚ) (tmax : Option ℚ) : Bool :=
  match tmax with
  | none => false
  | some v => decide (v < tmin)

/-- Whether `t_max >= 0` with `t_max` possibly infinite. -/
def geZeroInf (tmax : Option ℚ) : Bool :=
  match tmax with
  | none => true
  | some v => decide (0 ≤ v)

namespace AABB

/-- One iteration of the slab loop of
`AABB::IntersectsRay(ray, t_min, t_max)` for axis `i`; `none` state means an
early `return false` already happened. -/
def slabStep (a : AABB) (r : Ray) (i : ℕ) :
    Option (ℚ × Option ℚ) → Option (ℚ × Option ℚ)
  | none => none
  | some (tmin, tmax) =>
    if |r.direction.comp i| < 1 / 100000000 then
      if r.origin.comp i < a.minPoint.comp i ∨ r.origin.comp i > a.maxPoint.comp i then none
      else some (tmin, tmax)
    else
      let inv_d := 1 / r.direction.comp i
      let t1 := (a.minPoint.comp i - r.origin.comp i) * inv_d
      let t2 := (a.maxPoint.comp i - r.origin.comp i) * inv_d
      let lo := min t1 t2
      let hi := max t1 t2
      let tmin2 := max tmin lo
      let tmax2 := minInf tmax hi
      if gtInf tmin2 tmax2 then none else some (tmin2, tmax2)

/-- `AABB::IntersectsRay(ray, t_min, t_max)`: slab loop over the three axes
from `t_min = 0`, `t_max = ∞`; on success requires `t_max >= 0` and yields
the pair. -/
def IntersectsRayMM (a : AABB) (r : Ray) : Option (ℚ × Option ℚ) :=
  match slabStep a r 2 (slabStep a r 1 (slabStep a r 0 (some (0, none)))) with
  | none => none
  | some (tmin, tmax) => if geZeroInf tmax then some (tmin, tmax) else none

/-- `AABB::IntersectsRay(ray, distance)`: on a slab hit, the distance is
`t_min` when nonnegative, else `t_max`; returns true when that distance is
nonnegative.  `some d` is a true return with out-parameter `d` (`none` for a
float-infinity distance); outer `none` is false. -/
def IntersectsRayDist (a : AABB) (r : Ray) : Option (Option ℚ) :=
  match a.IntersectsRayMM r with
  | none => none
  | some (tmin, tmax) =>
    let distance : Option ℚ := if 0 ≤ tmin then some tmin else tmax
    match distance with
    | none => some none
    | some dv => if 0 ≤ dv then some (some dv) else none

end AABB

/-!
Claim theorems.
-/

/-- C1: for every BoundingVolumes `bv`, packing into the flat record and
unpacking again restores every packed component exactly (AABB min/max, OBB
center/axes/half extents, sphere center/radius); exact equality in
particular means equality within float epsilon. -/
theorem C1_pack_to_roundtrip (bv : BoundingVolumes) :
    ((bv.Pack).To).aabb.minPoint = bv.aabb.minPoint ∧
    ((bv.Pack).To).aabb.maxPoint = bv.aabb.maxPoint ∧
    ((bv.Pack).To).obb.center = bv.obb.center ∧
    ((bv.Pack).To).obb.axis0 = bv.obb.axis0 ∧
    ((bv.Pack).To).obb.axis1 = bv.obb.axis1 ∧
    ((bv.Pack).To).obb.axis2 = bv.obb.axis2 ∧
    ((bv.Pack).To).obb.half_length = bv.obb.half_length ∧
    ((bv.Pack).To).bsphere.center = bv.bsphere.center ∧
    ((bv.Pack).To).bsphere.radius = bv.bsphere.radius :=
  ⟨rfl, rfl, rfl, rfl, rfl, rfl, rfl, rfl, rfl⟩

/-- C2: the hierarchical `BoundingVolumes::Intersects` cascade returns true
exactly when the sphere test, the AABB test and the OBB test all pass; the
`Bool.and` chain on the right is false at the first failing test in the
sphere, AABB, OBB order. -/
theorem C2_intersects_cascade (a b : BoundingVolumes) :
    a.Intersects b =
      (a.bsphere.Intersects b.bsphere &&
       a.aabb.Intersects b.aabb &&
       a.obb.Intersects b.obb) := by
  unfold BoundingVolumes.Intersects BoundingVolumes.IntersectsFast
    BoundingVolumes.IntersectsAABB BoundingVolumes.IntersectsOBB
  cases a.bsphere.Intersects b.bsphere <;>
    cases a.aabb.Intersects b.aabb <;>
      cases a.obb.Intersects b.obb <;> simp

/-- C4: a point-containment query on an OBB whose axes are the identity
basis agrees with the query on the AABB with min `c - h` and max `c + h`. -/
theorem C4_identity_obb_contains_eq_aabb (c h p : Vec3) :
    (OBB.SetIdentity c h).ContainsPoint p =
    (AABB.SetMinMax (c - h) (c + h)).ContainsPoint p := by
  have hr : List.range 3 = [0, 1, 2] := rfl
  rw [Bool.eq_iff_iff]
  simp only [OBB.SetIdentity, OBB.Set, OBB.ContainsPoint, AABB.SetMinMax,
    AABB.ContainsPoint, OBB.GetAxis, hr, List.all_cons, List.all_nil,
    Bool.and_eq_true, decide_eq_true_eq, and_true, Vec3.dot, Vec3.comp,
    Vec3.sub_x, Vec3.sub_y, Vec3.sub_z, Vec3.add_x, Vec3.add_y, Vec3.add_z,
    mul_one, mul_zero, add_zero, zero_add, abs_le, and_assoc]
  constructor
  · rintro ⟨h1, h2, h3, h4, h5, h6⟩
    refine ⟨by linarith, by linarith, by linarith, by linarith, by linarith, by linarith⟩
  · rintro ⟨h1, h2, h3, h4, h5, h6⟩
    refine ⟨by linarith, by linarith, by linarith, by linarith, by linarith, by linarith⟩

set_option maxHeartbeats 1000000 in
/-- C5: the ray from (−5,0,0) along (1,0,0) hits the AABB [(−1,−1,−1),
(1,1,1)]: `IntersectsRay` returns true with hit distance exactly 4. -/
theorem C5_ray_aabb_scenario :
    (AABB.SetMinMax (Vec3.mk (-1) (-1) (-1)) (Vec3.mk 1 1 1)).IntersectsRayDist
      ⟨Vec3.mk (-5) 0 0, Vec3.mk 1 0 0⟩ = some (some 4) := by
  have h0 : AABB.slabStep (AABB.SetMinMax (Vec3.mk (-1) (-1) (-1)) (Vec3.mk 1 1 1))
      ⟨Vec3.mk (-5) 0 0, Vec3.mk 1 0 0⟩ 0 (some (0, none)) = some (4, some 6) := by
    norm_num [AABB.slabStep, AABB.SetMinMax, Vec3.comp, minInf, gtInf, min_def, max_def]
  have h1 : AABB.slabStep (AABB.SetMinMax (Vec3.mk (-1) (-1) (-1)) (Vec3.mk 1 1 1))
      ⟨Vec3.mk (-5) 0 0, Vec3.mk 1 0 0⟩ 1 (some (4, some 6)) = some (4, some 6) := by
    norm_num [AABB.slabStep, AABB.SetMinMax, Vec3.comp, minInf, gtInf, min_def, max_def]
  have h2 : AABB.slabStep (AABB.SetMinMax (Vec3.mk (-1) (-1) (-1)) (Vec3.mk 1 1 1))
      ⟨Vec3.mk (-5) 0 0, Vec3.mk 1 0 0⟩ 2 (some (4, some 6)) = some (4, some 6) := by
    norm_num [AABB.slabStep, AABB.SetMinMax, Vec3.comp, minInf, gtInf, min_def, max_def]
  unfold AABB.IntersectsRayDist AABB.IntersectsRayMM
  rw [h0, h1, h2]
  norm_num [geZeroInf]

/-- Characterization of the `BoxIn` plane loop: OUTSIDE as soon as any plane
sees a negative P-vertex distance; otherwise INTERSECT when any plane sees a
negative N-vertex distance; otherwise the running result. -/
theorem boxInLoop_eq (b : AABB) (res : Scope) (ps : List Plane) :
    Frustum.boxInLoop b res ps =
      if ps.any (fun p => decide (p.Distance (b.GetVertexP p.normal) < 0)) then Scope.OUTSIDE
      else if ps.any (fun p => decide (p.Distance (b.GetVertexN p.normal) < 0)) then Scope.INTERSECT
      else res := by
  induction ps generalizing res with
  | nil => simp [Frustum.boxInLoop]
  | cons p rest ih =>
    unfold Frustum.boxInLoop
    by_cases hp : p.Distance (b.GetVertexP p.normal) < 0
    · simp [List.any_cons, hp]
    · by_cases hn : p.Distance (b.GetVertexN p.normal) < 0
      · rw [if_neg hp, if_pos hn, ih]
        by_cases hP : rest.any (fun q => decide (q.Distance (b.GetVertexP q.normal) < 0)) = true
        · simp [List.any_cons, hp, hn, hP]
        · simp [List.any_cons, hp, hn, hP]
      · rw [if_neg hp, if_neg hn, ih]
        simp [List.any_cons, hp, hn]

/-- C3: `Frustum::BoxIn` returns OUTSIDE exactly when some plane gives the
AABB's P-vertex a negative distance (the loop short-circuits at the first
such plane, which does not change the result); otherwise it returns
INTERSECT exactly when some plane gives the N-vertex a negative distance
(checked across all remaining planes, without short-circuit); otherwise
INSIDE. -/
theorem C3_frustum_box_in (f : Frustum) (b : AABB) :
    f.BoxIn b =
      if (f.planeList).any (fun p => decide (p.Distance (b.GetVertexP p.normal) < 0))
        then Scope.OUTSIDE
      else if (f.planeList).any (fun p => decide (p.Distance (b.GetVertexN p.normal) < 0))
        then Scope.INTERSECT
      else Scope.INSIDE :=
  boxInLoop_eq b Scope.INSIDE f.planeList

/-- A three-element index loop with early exit is `List.any` over
`range 3`, equivalently an existential over `Fin 3`. -/
theorem any_range3_iff (g : ℕ → Bool) :
    (List.range 3).any g = true ↔ ∃ i : Fin 3, g i.val = true := by
  simp only [List.any_eq_true, List.mem_range]
  constructor
  · rintro ⟨i, hi, h⟩; exact ⟨⟨i, hi⟩, h⟩
  · rintro ⟨⟨i, hi⟩, h⟩; exact ⟨i, hi, h⟩

/-- C7: `OBB::IntersectsAABB` reports no intersection exactly when one of
six candidate axes — the OBB's three axes or the three world axes —
separates the projected extents (the projected center offset exceeds the sum
of projected half extents).  The nine cross-product axes are not among the
tested conditions, so two boxes separated only by a cross axis fail no
tested condition and are reported as intersecting. -/
theorem C7_obb_aabb_sat_axes (o : OBB) (a : AABB) :
    o.IntersectsAABB a = false ↔
      ((∃ i : Fin 3, o.obbAxisSepB a i.val = true) ∨
       (∃ i : Fin 3, o.worldAxisSepB a i.val = true)) := by
  unfold OBB.IntersectsAABB
  rw [← any_range3_iff, ← any_range3_iff]
  cases h1 : (List.range 3).any (o.obbAxisSepB a) <;>
    cases h2 : (List.range 3).any (o.worldAxisSepB a) <;> simp

/-- C8 counterexample: on the empty sphere (radius −1 sentinel, center at
the origin), `ExpandToInclude` of the point (1,0,0) — whose exact distance
to the center is 1 — moves the center, contradicting the claim that the
center never changes. -/
theorem C8_counterexample :
    (0:ℚ) ≤ 1 ∧
    (1:ℚ) ^ 2 =
      Vec3.dot (Vec3.mk 1 0 0 - (BoundingSphere.mk (Vec3.mk 0 0 0) (-1)).center)
        (Vec3.mk 1 0 0 - (BoundingSphere.mk (Vec3.mk 0 0 0) (-1)).center) ∧
    (BoundingSphere.ExpandToIncludeD (BoundingSphere.mk (Vec3.mk 0 0 0) (-1))
        (Vec3.mk 1 0 0) 1).center ≠
      (BoundingSphere.mk (Vec3.mk 0 0 0) (-1)).center := by
  refine ⟨by norm_num, by norm_num [Vec3.dot], ?_⟩
  norm_num [BoundingSphere.ExpandToIncludeD, Vec3.mk.injEq]

/-- C8 (amended): for every non-empty sphere (radius > 0),
`ExpandToInclude` never changes the center, and the radius changes only when
the point's distance exceeds the current radius, in which case it grows to
exactly that distance.  (On an empty sphere the code instead recenters to
the point with radius 0.) -/
theorem C8_expand_to_include_frame (s : BoundingSphere) (p : Vec3) (dist : ℚ)
    (hne : 0 < s.radius) (hd0 : 0 ≤ dist)
    (hd : dist ^ 2 = Vec3.dot (p - s.center) (p - s.center)) :
    (s.ExpandToIncludeD p dist).center = s.center ∧
    (s.ExpandToIncludeD p dist).radius = (if s.radius < dist then dist else s.radius) := by
  unfold BoundingSphere.ExpandToIncludeD
  rw [if_neg (by linarith)]
  by_cases hlt : s.radius < dist
  · simp [hlt]
  · simp [hlt]

/-- C8 witness: the unit sphere at the origin expanded to the point (2,0,0)
at distance 2 keeps its center and grows its radius to 2. -/
theorem C8_expand_to_include_frame_witness :
    0 < (BoundingSphere.mk (Vec3.mk 0 0 0) 1).radius ∧ (0:ℚ) ≤ 2 ∧
    (2:ℚ) ^ 2 =
      Vec3.dot (Vec3.mk 2 0 0 - (BoundingSphere.mk (Vec3.mk 0 0 0) 1).center)
        (Vec3.mk 2 0 0 - (BoundingSphere.mk (Vec3.mk 0 0 0) 1).center) ∧
    ((BoundingSphere.mk (Vec3.mk 0 0 0) 1).ExpandToIncludeD (Vec3.mk 2 0 0) 2).center =
        (BoundingSphere.mk (Vec3.mk 0 0 0) 1).center ∧
    ((BoundingSphere.mk (Vec3.mk 0 0 0) 1).ExpandToIncludeD (Vec3.mk 2 0 0) 2).radius =
      (if (BoundingSphere.mk (Vec3.mk 0 0 0) 1).radius < 2 then (2:ℚ)
       else (BoundingSphere.mk (Vec3.mk 0 0 0) 1).radius) :=
  ⟨by norm_num, by norm_num, by norm_num [Vec3.dot],
   C8_expand_to_include_frame (BoundingSphere.mk (Vec3.mk 0 0 0) 1) (Vec3.mk 2 0 0) 2
     (by norm_num) (by norm_num) (by norm_num [Vec3.dot])⟩

/-- C9: on a null point buffer or a zero count, `AABB::SetFromPoints` leaves
the all-zero cleared box, `BoundingSphere::SetFromPoints` leaves the cleared
sphere with the radius −1 sentinel, and `BoundingVolumes::SetFromPoints`
clears all three member volumes and returns false — for every stride and
every fit routine, with no undefined value produced. -/
theorem C9_degenerate_set_from_points (pts : Option (List ℚ)) (count cc : ℕ)
    (obbFit : List ℚ → ℕ → ℕ → OBB)
    (sphFit : List ℚ → ℕ → ℕ → BoundingSphere)
    (hdeg : pts = none ∨ count = 0) :
    AABB.SetFromPoints pts count cc = AABB.Clear ∧
    BoundingSphere.SetFromPointsF pts count cc sphFit = BoundingSphere.Clear ∧
    BoundingSphere.Clear.radius = -1 ∧
    BoundingVolumes.SetFromPoints pts count cc obbFit sphFit =
      (BoundingVolumes.Clear, false) := by
  rcases hdeg with hp | hc
  · subst hp; exact ⟨rfl, rfl, rfl, rfl⟩
  · subst hc
    cases pts with
    | none => exact ⟨rfl, rfl, rfl, rfl⟩
    | some l =>
      refine ⟨?_, ?_, rfl, ?_⟩ <;>
        simp [AABB.SetFromPoints, BoundingSphere.SetFromPointsF,
          BoundingVolumes.SetFromPoints]

/-- C9 witness: the null-buffer case at count 5, stride 3, with constant fit
routines. -/
theorem C9_degenerate_set_from_points_witness :
    ((none : Option (List ℚ)) = none ∨ 5 = 0) ∧
    (AABB.SetFromPoints none 5 3 = AABB.Clear ∧
     BoundingSphere.SetFromPointsF none 5 3 (fun _ _ _ => BoundingSphere.Clear) =
       BoundingSphere.Clear ∧
     BoundingSphere.Clear.radius = -1 ∧
     BoundingVolumes.SetFromPoints none 5 3 (fun _ _ _ => OBB.Clear)
       (fun _ _ _ => BoundingSphere.Clear) = (BoundingVolumes.Clear, false)) :=
  ⟨Or.inl rfl,
   C9_degenerate_set_from_points none 5 3 (fun _ _ _ => OBB.Clear)
     (fun _ _ _ => BoundingSphere.Clear) (Or.inl rfl)⟩

/-- Componentwise equality criterion for `Vec3`. -/
theorem Vec3.eq_iff (a b : Vec3) : a = b ↔ a.x = b.x ∧ a.y = b.y ∧ a.z = b.z := by
  obtain ⟨ax, ay, az⟩ := a
  obtain ⟨bx, by', bz⟩ := b
  simp

/-- Scaling both arguments of the dot product squares the scalar. -/
theorem dot_smul_self (q : ℚ) (v : Vec3) :
    Vec3.dot (q • v) (q • v) = q ^ 2 * Vec3.dot v v := by
  simp only [Vec3.dot, Vec3.smul_x, Vec3.smul_y, Vec3.smul_z]
  ring

/-- Cauchy–Schwarz in three rational coordinates (Lagrange identity). -/
theorem cs3 (ux uy uz vx vy vz : ℚ) :
    (ux * vx + uy * vy + uz * vz) ^ 2 ≤
      (ux ^ 2 + uy ^ 2 + uz ^ 2) * (vx ^ 2 + vy ^ 2 + vz ^ 2) := by
  nlinarith [sq_nonneg (uy * vz - uz * vy), sq_nonneg (uz * vx - ux * vz),
    sq_nonneg (ux * vy - uy * vx)]

/-- Triangle-style bound from squared data: if two legs have squared lengths
at most A² and B², the distance between their far endpoints is at most
A + B. -/
theorem distTriangleSq (ux uy uz vx vy vz A B dist : ℚ)
    (hA : 0 ≤ A) (hB : 0 ≤ B) (hd0 : 0 ≤ dist)
    (hu : ux ^ 2 + uy ^ 2 + uz ^ 2 ≤ A ^ 2)
    (hv : vx ^ 2 + vy ^ 2 + vz ^ 2 ≤ B ^ 2)
    (hdist : dist ^ 2 = (ux - vx) ^ 2 + (uy - vy) ^ 2 + (uz - vz) ^ 2) :
    dist ≤ A + B := by
  have hcs := cs3 ux uy uz vx vy vz
  have huu : (0:ℚ) ≤ ux ^ 2 + uy ^ 2 + uz ^ 2 := by positivity
  have hvv : (0:ℚ) ≤ vx ^ 2 + vy ^ 2 + vz ^ 2 := by positivity
  have hAB : (0:ℚ) ≤ A * B := mul_nonneg hA hB
  have hprod : (ux ^ 2 + uy ^ 2 + uz ^ 2) * (vx ^ 2 + vy ^ 2 + vz ^ 2) ≤ A ^ 2 * B ^ 2 :=
    mul_le_mul hu hv hvv (sq_nonneg A)
  have hs : -(A * B) ≤ ux * vx + uy * vy + uz * vz := by
    nlinarith [hcs, hprod, hAB, sq_nonneg (ux * vx + uy * vy + uz * vz + A * B)]
  have h2 : dist ^ 2 ≤ (A + B) ^ 2 := by nlinarith [hu, hv, hs, hdist]
  nlinarith [h2, hd0, hA, hB]

/-- C6: for non-empty spheres, `Merge` takes the larger sphere when one
already contains the other, otherwise builds the sphere with radius
(dist + r1 + r2)/2 whose center is shifted from the first center toward the
second along the center axis; in all cases the result contains both inputs,
and no sphere containing both inputs has a smaller radius (exact minimal
enclosing sphere). -/
theorem C6_sphere_merge (s1 s2 : BoundingSphere) (dist : ℚ)
    (h1 : 0 < s1.radius) (h2 : 0 < s2.radius) (hd0 : 0 ≤ dist)
    (hd : dist ^ 2 = Vec3.dot (s2.center - s1.center) (s2.center - s1.center)) :
    (dist + s2.radius ≤ s1.radius → s1.MergeD s2 dist = s1) ∧
    (¬(dist + s2.radius ≤ s1.radius) → dist + s1.radius ≤ s2.radius →
      s1.MergeD s2 dist = s2) ∧
    (¬(dist + s2.radius ≤ s1.radius) → ¬(dist + s1.radius ≤ s2.radius) →
      (s1.MergeD s2 dist).radius = (dist + s1.radius + s2.radius) / 2 ∧
      (s1.MergeD s2 dist).center =
        s1.center +
          (((dist + s1.radius + s2.radius) / 2 - s1.radius) / dist) •
            (s2.center - s1.center)) ∧
    BoundingSphere.enclosesSq (s1.MergeD s2 dist) s1 ∧
    BoundingSphere.enclosesSq (s1.MergeD s2 dist) s2 ∧
    (∀ S : BoundingSphere, 0 ≤ S.radius → BoundingSphere.enclosesSq S s1 →
      BoundingSphere.enclosesSq S s2 → (s1.MergeD s2 dist).radius ≤ S.radius) := by
  have hdd : (s2.center.x - s1.center.x) ^ 2 + (s2.center.y - s1.center.y) ^ 2 +
      (s2.center.z - s1.center.z) ^ 2 = dist ^ 2 := by
    rw [hd]; simp only [Vec3.dot, Vec3.sub_x, Vec3.sub_y, Vec3.sub_z]; ring
  by_cases hb1 : dist + s2.radius ≤ s1.radius
  · have hm : s1.MergeD s2 dist = s1 := by
      unfold BoundingSphere.MergeD
      rw [if_neg (not_le.mpr h2), if_neg (not_le.mpr h1), if_pos hb1]
    refine ⟨fun _ => hm, fun hn _ => absurd hb1 hn, fun hn _ => absurd hb1 hn, ?_, ?_, ?_⟩
    · rw [hm]
      exact ⟨le_refl _, by simp [Vec3.dot]⟩
    · rw [hm]
      refine ⟨by linarith, ?_⟩
      have hrev : Vec3.dot (s1.center - s2.center) (s1.center - s2.center) = dist ^ 2 := by
        rw [hd]; simp only [Vec3.dot, Vec3.sub_x, Vec3.sub_y, Vec3.sub_z]; ring
      rw [hrev]
      nlinarith [hb1, hd0, h2]
    · intro S _ e1 _
      rw [hm]
      exact e1.1
  · by_cases hb2 : dist + s1.radius ≤ s2.radius
    · have hm : s1.MergeD s2 dist = s2 := by
        unfold BoundingSphere.MergeD
        rw [if_neg (not_le.mpr h2), if_neg (not_le.mpr h1), if_neg hb1, if_pos hb2]
      refine ⟨fun hc => absurd hc hb1, fun _ _ => hm, fun _ hn => absurd hb2 hn, ?_, ?_, ?_⟩
      · rw [hm]
        refine ⟨by linarith, ?_⟩
        rw [← hd]
        nlinarith [hb2, hd0, h1]
      · rw [hm]
        exact ⟨le_refl _, by simp [Vec3.dot]⟩
      · intro S _ _ e2
        rw [hm]
        exact e2.1
    · have hr1lt : s1.radius < dist + s2.radius := not_le.mp hb1
      have hr2lt : s2.radius < dist + s1.radius := not_le.mp hb2
      have hdpos : 0 < dist := by
        rcases eq_or_lt_of_le hd0 with he | hl
        · exfalso; rw [← he] at hr1lt hr2lt; linarith
        · exact hl
      have hdne : dist ≠ 0 := ne_of_gt hdpos
      have hm : s1.MergeD s2 dist =
          { center := s1.center +
              (((dist + s1.radius + s2.radius) * (1/2) - s1.radius) / dist) •
                (s2.center - s1.center)
            radius := (dist + s1.radius + s2.radius) * (1/2) } := by
        unfold BoundingSphere.MergeD
        rw [if_neg (not_le.mpr h2), if_neg (not_le.mpr h1), if_neg hb1, if_neg hb2]
      have hc1 : (s1.MergeD s2 dist).center - s1.center =
          (((dist + s1.radius + s2.radius) * (1/2) - s1.radius) / dist) •
            (s2.center - s1.center) := by
        rw [hm, Vec3.eq_iff]
        refine ⟨?_, ?_, ?_⟩ <;> simp
      have hc2 : (s1.MergeD s2 dist).center - s2.center =
          ((((dist + s1.radius + s2.radius) * (1/2) - s1.radius) / dist) - 1) •
            (s2.center - s1.center) := by
        rw [hm, Vec3.eq_iff]
        refine ⟨?_, ?_, ?_⟩ <;> simp <;> ring
      have hdot1 : Vec3.dot ((s1.MergeD s2 dist).center - s1.center)
          ((s1.MergeD s2 dist).center - s1.center) =
          ((dist + s1.radius + s2.radius) * (1/2) - s1.radius) ^ 2 := by
        rw [hc1, dot_smul_self, ← hd]
        field_simp
        ring
      have hdot2 : Vec3.dot ((s1.MergeD s2 dist).center - s2.center)
          ((s1.MergeD s2 dist).center - s2.center) =
          ((dist + s1.radius + s2.radius) * (1/2) - s2.radius) ^ 2 := by
        rw [hc2, dot_smul_self, ← hd]
        field_simp
        ring
      have hmr : (s1.MergeD s2 dist).radius = (dist + s1.radius + s2.radius) * (1/2) := by
        rw [hm]
      refine ⟨fun hc => absurd hc hb1, fun _ hc => absurd hc hb2, fun _ _ => ?_, ?_, ?_, ?_⟩
      · constructor
        · rw [hmr]; ring
        · have hsc : ((dist + s1.radius + s2.radius) * (1/2) - s1.radius) / dist =
              ((dist + s1.radius + s2.radius) / 2 - s1.radius) / dist := by ring
          rw [hm]
          show s1.center +
              (((dist + s1.radius + s2.radius) * (1/2) - s1.radius) / dist) •
                (s2.center - s1.center) = _
          rw [hsc]
      · refine ⟨?_, ?_⟩
        · rw [hmr]; linarith
        · rw [hdot1, hmr]
      · refine ⟨?_, ?_⟩
        · rw [hmr]; linarith
        · rw [hdot2, hmr]
      · intro S hSr e1 e2
        obtain ⟨e1r, e1d⟩ := e1
        obtain ⟨e2r, e2d⟩ := e2
        have hu : (S.center.x - s1.center.x) ^ 2 + (S.center.y - s1.center.y) ^ 2 +
            (S.center.z - s1.center.z) ^ 2 ≤ (S.radius - s1.radius) ^ 2 := by
          simp only [Vec3.dot, Vec3.sub_x, Vec3.sub_y, Vec3.sub_z] at e1d
          ring_nf at e1d ⊢
          linarith [e1d]
        have hv : (S.center.x - s2.center.x) ^ 2 + (S.center.y - s2.center.y) ^ 2 +
            (S.center.z - s2.center.z) ^ 2 ≤ (S.radius - s2.radius) ^ 2 := by
          simp only [Vec3.dot, Vec3.sub_x, Vec3.sub_y, Vec3.sub_z] at e2d
          ring_nf at e2d ⊢
          linarith [e2d]
        have hdist2 : dist ^ 2 =
            ((S.center.x - s1.center.x) - (S.center.x - s2.center.x)) ^ 2 +
            ((S.center.y - s1.center.y) - (S.center.y - s2.center.y)) ^ 2 +
            ((S.center.z - s1.center.z) - (S.center.z - s2.center.z)) ^ 2 := by
          linear_combination -hdd
        have key := distTriangleSq (S.center.x - s1.center.x) (S.center.y - s1.center.y)
          (S.center.z - s1.center.z) (S.center.x - s2.center.x) (S.center.y - s2.center.y)
          (S.center.z - s2.center.z) (S.radius - s1.radius) (S.radius - s2.radius) dist
          (by linarith) (by linarith) hd0 hu hv hdist2
        rw [hmr]
        linarith

/-- C6 witness: unit spheres centered at the origin and at (3,0,0), center
distance 3; neither contains the other, so the merged sphere has radius 5/2
and the minimality and containment clauses apply. -/
theorem C6_sphere_merge_witness :
    0 < (BoundingSphere.mk (Vec3.mk 0 0 0) 1).radius ∧
    0 < (BoundingSphere.mk (Vec3.mk 3 0 0) 1).radius ∧ (0:ℚ) ≤ 3 ∧
    (3:ℚ) ^ 2 =
      Vec3.dot ((BoundingSphere.mk (Vec3.mk 3 0 0) 1).center -
          (BoundingSphere.mk (Vec3.mk 0 0 0) 1).center)
        ((BoundingSphere.mk (Vec3.mk 3 0 0) 1).center -
          (BoundingSphere.mk (Vec3.mk 0 0 0) 1).center) ∧
    BoundingSphere.enclosesSq
      ((BoundingSphere.mk (Vec3.mk 0 0 0) 1).MergeD (BoundingSphere.mk (Vec3.mk 3 0 0) 1) 3)
      (BoundingSphere.mk (Vec3.mk 0 0 0) 1) ∧
    BoundingSphere.enclosesSq
      ((BoundingSphere.mk (Vec3.mk 0 0 0) 1).MergeD (BoundingSphere.mk (Vec3.mk 3 0 0) 1) 3)
      (BoundingSphere.mk (Vec3.mk 3 0 0) 1) := by
  have h := C6_sphere_merge (BoundingSphere.mk (Vec3.mk 0 0 0) 1)
    (BoundingSphere.mk (Vec3.mk 3 0 0) 1) 3 (by norm_num) (by norm_num) (by norm_num)
    (by norm_num [Vec3.dot])
  exact ⟨by norm_num, by norm_num, by norm_num, by norm_num [Vec3.dot],
    h.2.2.2.1, h.2.2.2.2.1⟩

/-- C10: a sphere in the empty-sentinel state (radius −1) still reports
containment for every point whose squared distance to its center is at most
1, because the test squares the radius and (−1)² = 1. -/
theorem C10_empty_sentinel_contains (s : BoundingSphere) (p : Vec3)
    (hs : s.radius = -1)
    (hp : Vec3.dot (p - s.center) (p - s.center) ≤ 1) :
    s.ContainsPoint p = true := by
  unfold BoundingSphere.ContainsPoint
  rw [hs]
  norm_num
  linarith

/-- C10 witness: the cleared sphere contains the point (1,0,0) at squared
distance exactly 1. -/
theorem C10_empty_sentinel_contains_witness :
    (BoundingSphere.mk (Vec3.mk 0 0 0) (-1)).radius = -1 ∧
    Vec3.dot (Vec3.mk 1 0 0 - Vec3.mk 0 0 0) (Vec3.mk 1 0 0 - Vec3.mk 0 0 0) ≤ 1 ∧
    (BoundingSphere.mk (Vec3.mk 0 0 0) (-1)).ContainsPoint (Vec3.mk 1 0 0) = true :=
  ⟨rfl, by norm_num [Vec3.dot],
   C10_empty_sentinel_contains (BoundingSphere.mk (Vec3.mk 0 0 0) (-1))
     (Vec3.mk 1 0 0) rfl (by norm_num [Vec3.dot])⟩

end CMMath
